import Mathlib

/-!
# Verification of the Forsit e-commerce revenue/inventory service

Shallow embedding of `src/main.py` (FastAPI + SQLAlchemy service).

Modelling conventions:

* The persistence store is a `List` of rows; a SQLAlchemy `query(...).filter(p)`
  chain is embedded as `List.filter` applications in the order the source
  applies them, and `.all()` returns the filtered list.
* Python `datetime` values are modelled at day granularity by a `Date` record
  `(year, month, day)`; no claim under verification depends on the time-of-day
  components, which are carried unchanged by every operation the source
  performs (comparison, `timedelta(days=n)` shifts, `replace` of date fields).
  `datetime` comparison is lexicographic on the fields, adding or subtracting
  `timedelta(days=n)` is iterated calendar successor/predecessor, and
  `datetime.replace` validates
  the resulting field combination, returning `none` where Python raises
  `ValueError` (year below `MINYEAR = 1`, month outside 1..12, day outside
  the month's range).  The `MAXYEAR = 9999` upper cap of Python `datetime`
  is elided (years are unbounded above): no claim concerns it.
* Python `float` revenue amounts are modelled as rationals `ℚ`; the claims
  under verification concern which values are accumulated, not rounding.
* Python truthiness tests (`if product_id:`) are embedded exactly: an
  `Option Int` is truthy iff it is `some v` with `v ≠ 0`, an `Option Date`
  is truthy iff it is `some` (datetimes are always truthy).
* A raised `HTTPException(status_code, detail)` is an `Except.error` carrying
  the status code and detail string; an operation that can raise returns
  `Except`/`Option`.
-/

namespace Forsit

/-- Gregorian leap-year rule (as implemented by Python's `datetime`). -/
def isLeap (y : Nat) : Bool :=
  y % 4 == 0 && (y % 100 != 0 || y % 400 == 0)

/-- Number of days in month `m` of year `y` (months numbered 1..12),
as in Python's `calendar`/`datetime`. -/
def daysInMonth (y m : Nat) : Nat :=
  if m = 2 then (if isLeap y then 29 else 28)
  else if m = 4 ∨ m = 6 ∨ m = 9 ∨ m = 11 then 30
  else 31

/-- A calendar date: the date components of a Python `datetime`. -/
structure Date where
  year : Nat
  month : Nat
  day : Nat
deriving DecidableEq, Repr

/-- Field-combination validity enforced by the `datetime` constructor and by
`datetime.replace`: year at least `MINYEAR = 1`, month in 1..12, day in
1..days-in-month (the `MAXYEAR` cap is the one elision, see the header). -/
def Date.valid (d : Date) : Bool :=
  1 ≤ d.year && 1 ≤ d.month && d.month ≤ 12 && 1 ≤ d.day &&
    d.day ≤ daysInMonth d.year d.month

/-- `datetime` comparison `a <= b`: lexicographic on (year, month, day). -/
def Date.ble (a b : Date) : Bool :=
  decide (a.year < b.year) ||
    (a.year == b.year &&
      (decide (a.month < b.month) ||
        (a.month == b.month && decide (a.day ≤ b.day))))

/-- Calendar successor: the effect of `+ timedelta(days=1)`. -/
def nextDay (d : Date) : Date :=
  if d.day < daysInMonth d.year d.month then ⟨d.year, d.month, d.day + 1⟩
  else if d.month < 12 then ⟨d.year, d.month + 1, 1⟩
  else ⟨d.year + 1, 1, 1⟩

/-- Calendar predecessor: the effect of `- timedelta(days=1)`. -/
def prevDay (d : Date) : Date :=
  if 1 < d.day then ⟨d.year, d.month, d.day - 1⟩
  else if 1 < d.month then ⟨d.year, d.month - 1, daysInMonth d.year (d.month - 1)⟩
  else ⟨d.year - 1, 12, daysInMonth (d.year - 1) 12⟩

/-- `d + timedelta(days=n)`. -/
def addDays (n : Nat) (d : Date) : Date :=
  nextDay^[n] d

/-- `d.replace(...)` with keyword arguments `year`, `month`, `day`: a field
not supplied keeps the receiver's value; Python validates the resulting field
combination and raises `ValueError` when it is out of range (e.g. `month=13`);
the raise is modelled as `none`. -/
def Date.replace (d : Date) (y m day : Option Nat) : Option Date :=
  let d' : Date := ⟨y.getD d.year, m.getD d.month, day.getD d.day⟩
  if d'.valid then some d' else none

/-- Day-count interpretation of a date: days elapsed from the epoch
(0001-01-01 has ordinal 1), used to check that the calendar successor
really advances time by one day.  Matches `datetime.toordinal`. -/
def leapCount (y : Nat) : Nat :=
  y / 4 - y / 100 + y / 400

/-- Days in year `y` strictly before month `m` (months 1..12). -/
def daysBeforeMonth (y m : Nat) : Nat :=
  match m with
  | 0 => 0
  | 1 => 0
  | k + 2 => daysBeforeMonth y (k + 1) + daysInMonth y (k + 1)

/-- Proleptic-Gregorian ordinal of a date, as `datetime.toordinal`. -/
def dateOrd (d : Date) : Nat :=
  365 * (d.year - 1) + leapCount (d.year - 1) + daysBeforeMonth d.year d.month + d.day

/-! ## Rows of the persistence store (`Sale`, `Inventory` tables) -/

/-- A row of the `sales` table (`class Sale`). -/
structure Sale where
  id : Nat
  product_id : Int
  quantity : Int
  revenue : ℚ
  sale_date : Date
  category_id : Int
deriving DecidableEq, Repr

/-- A row of the `inventory` table (`class Inventory`).  `last_updated` is an
abstract timestamp; the claims only compare such instants, so a `Nat` clock
suffices. -/
structure Inventory where
  id : Nat
  product_id : Int
  stock_quantity : Int
  last_updated : Nat
  category_id : Int
deriving DecidableEq, Repr

/-! ## `GET /sales/` — `get_sales` (src/main.py:200-221) -/

/-- `get_sales`: starts from all `Sale` rows and narrows with one filter per
truthy parameter, exactly in the source's order.  Note the Python truthiness
of the two id parameters: `if product_id:` skips the filter both when the
parameter is absent and when it is `0`. -/
def get_sales (db : List Sale) (start_date end_date : Option Date)
    (product_id category_id : Option Int) : List Sale :=
  let q := db
  let q := match start_date with
    | none => q
    | some d => q.filter (fun s => Date.ble d s.sale_date)
  let q := match end_date with
    | none => q
    | some d => q.filter (fun s => Date.ble s.sale_date d)
  let q := match product_id with
    | none => q
    | some p => if p ≠ 0 then q.filter (fun s => s.product_id == p) else q
  let q := match category_id with
    | none => q
    | some c => if c ≠ 0 then q.filter (fun s => s.category_id == c) else q
  q

/-! ## Revenue computation — `calculate_revenue_for_period` (src/main.py:226-242) -/

/-- The query parameters bundle (`class RevenueQueryParams`). -/
structure RevenueQueryParams where
  start_date : Date
  end_date : Date
  product_id : Option Int
  category_id : Option Int
deriving DecidableEq, Repr

/-- The rows returned by `sales_query.all()` inside
`calculate_revenue_for_period`: the mandatory date-range filter, then the two
truthiness-guarded id filters, in source order. -/
def calculate_revenue_matches (db : List Sale) (params : RevenueQueryParams) :
    List Sale :=
  let q := db.filter (fun s =>
    Date.ble params.start_date s.sale_date && Date.ble s.sale_date params.end_date)
  let q := match params.product_id with
    | none => q
    | some p => if p ≠ 0 then q.filter (fun s => s.product_id == p) else q
  let q := match params.category_id with
    | none => q
    | some c => if c ≠ 0 then q.filter (fun s => s.category_id == c) else q
  q

/-- `calculate_revenue_for_period`: `revenue = 0.0`, then
`for sale in sales: revenue += sale.revenue`. -/
def calculate_revenue_for_period (db : List Sale) (params : RevenueQueryParams) : ℚ :=
  (calculate_revenue_matches db params).foldl (fun acc s => acc + s.revenue) 0

/-! ## `GET /revenue/` — `revenue_analysis` (src/main.py:245-271)

The endpoint loops over the period labels in the fixed order
`["daily", "weekly", "monthly", "annual"]`, reassigning the single local
variable `end_date` in the `weekly`/`monthly`/`annual` branches.  We embed the
loop body as a state transformer on that variable (`periodStep`) and the loop
as a fold threading it (`revenueLoop`); a `ValueError` escaping from
`datetime.replace` aborts the whole request, hence the `Option`. -/

/-- The fixed iteration order of the period loop. -/
def revenuePeriods : List String :=
  ["daily", "weekly", "monthly", "annual"]

/-- One iteration of the period loop: given the original `start_date` and the
current value of the mutable `end_date` variable, returns the variable's new
value together with the window `[start_date, end_date]` passed to
`calculate_revenue_for_period` for this period; `none` when the branch raises
(`datetime.replace` with an out-of-range month).  Labels outside
`revenuePeriods` never reach this step. -/
def periodStep (start_date : Date) (period : String) (end_date : Date) :
    Option (Date × (Date × Date)) :=
  if period == "daily" then
    some (end_date, (start_date, end_date))
  else if period == "weekly" then
    let e := addDays 6 start_date
    some (e, (start_date, e))
  else if period == "monthly" then
    (start_date.replace none (some (start_date.month + 1)) (some 1)).map
      (fun d => let e := prevDay d; (e, (start_date, e)))
  else if period == "annual" then
    (start_date.replace (some (start_date.year + 1)) (some 1) (some 1)).map
      (fun d => let e := prevDay d; (e, (start_date, e)))
  else none

/-- The period loop itself: iterates `periodStep` over a list of labels,
threading the mutable `end_date` and collecting `(label, window)` pairs;
`none` as soon as an iteration raises. -/
def revenueLoop (start_date : Date) : List String → Date → Option (List (String × (Date × Date)))
  | [], _ => some []
  | p :: ps, e =>
    match periodStep start_date p e with
    | none => none
    | some (e', w) => (revenueLoop start_date ps e').map (fun rest => (p, w) :: rest)

/-- The `(label, window)` pairs produced by `revenue_analysis` for a request
`(start_date, end_date)`, before each window is handed to
`calculate_revenue_for_period`. -/
def revenueWindows (start_date end_date : Date) : Option (List (String × (Date × Date))) :=
  revenueLoop start_date revenuePeriods end_date

/-- The full `revenue_analysis` endpoint: each period's window, paired with
the summed revenue of the matching sales under the caller's id filters.
`none` models the unhandled `ValueError` crash. -/
def revenue_analysis (db : List Sale) (start_date end_date : Date)
    (product_id category_id : Option Int) : Option (List (String × ℚ)) :=
  (revenueWindows start_date end_date).map
    (List.map (fun pw =>
      (pw.1, calculate_revenue_for_period db
        ⟨pw.2.1, pw.2.2, product_id, category_id⟩)))

/-- The window each period label derives, as a pure function of the original
caller-supplied pair `(start_date, end_date)` — the per-branch arithmetic of
src/main.py:257-267 read independently of the loop's variable reuse.  Used to
state that the loop introduces no hidden state between periods. -/
def periodWindow (period : String) (start_date end_date : Date) :
    Option (Date × Date) :=
  if period == "daily" then
    some (start_date, end_date)
  else if period == "weekly" then
    some (start_date, addDays 6 start_date)
  else if period == "monthly" then
    (start_date.replace none (some (start_date.month + 1)) (some 1)).map
      (fun d => (start_date, prevDay d))
  else if period == "annual" then
    (start_date.replace (some (start_date.year + 1)) (some 1) (some 1)).map
      (fun d => (start_date, prevDay d))
  else none

/-- Sequencing of independently computed per-period windows: `none` when any
period's derivation raises. -/
def sequenceWindows : List (String × Option (Date × Date)) →
    Option (List (String × (Date × Date)))
  | [] => some []
  | (_, none) :: _ => none
  | (p, some w) :: rest => (sequenceWindows rest).map (fun ws => (p, w) :: ws)

/-! ## `PUT /inventory/{product_id}` — `update_inventory` (src/main.py:276-296) -/

/-- A raised `HTTPException`: status code and detail message. -/
structure HTTPError where
  status_code : Nat
  detail : String
deriving DecidableEq, Repr

/-- In-place mutation of the first `Inventory` row matching the product id
(the row `query(Inventory).filter(...).first()` found), followed by commit:
the store now holds the updated row in that position. -/
def replaceFirst (pid : Int) (inv' : Inventory) : List Inventory → List Inventory
  | [] => []
  | i :: rest =>
    if i.product_id == pid then inv' :: rest else i :: replaceFirst pid inv' rest

/-- `update_inventory`: rejects a non-positive `stock_quantity` with 400,
a missing inventory row with 404; otherwise sets the new quantity, stamps
`last_updated` with the current time `now` (`datetime.utcnow()`), commits,
and returns the refreshed row together with the store after the commit.
(`stock_quantity` is typed `int`, so the `isinstance` half of the source's
check cannot fail in the embedding.) -/
def update_inventory (db : List Inventory) (now : Nat) (product_id : Int)
    (stock_quantity : Int) : Except HTTPError (Inventory × List Inventory) :=
  if stock_quantity ≤ 0 then
    .error ⟨400, "stock_quantity should be a positive integer"⟩
  else
    match db.find? (fun i => i.product_id == product_id) with
    | none => .error ⟨404, "Inventory not found"⟩
    | some inventory =>
      let inventory' :=
        { inventory with stock_quantity := stock_quantity, last_updated := now }
      .ok (inventory', replaceFirst product_id inventory' db)

/-! ## Helper lemmas: membership in the filtered queries -/

theorem mem_if_id_filter (q : List Sale) (p : Int) (g : Sale → Int) (s : Sale) :
    (s ∈ if p ≠ 0 then q.filter (fun x => g x == p) else q) ↔
      s ∈ q ∧ (p ≠ 0 → g s = p) := by
  by_cases hp : p = 0 <;> simp [hp, List.mem_filter]

theorem mem_get_sales_iff (db : List Sale) (sd ed : Option Date)
    (pid cid : Option Int) (s : Sale) :
    s ∈ get_sales db sd ed pid cid ↔
      s ∈ db ∧
      (∀ d, sd = some d → Date.ble d s.sale_date = true) ∧
      (∀ d, ed = some d → Date.ble s.sale_date d = true) ∧
      (∀ p, pid = some p → p ≠ 0 → s.product_id = p) ∧
      (∀ c, cid = some c → c ≠ 0 → s.category_id = c) := by
  rcases sd with _ | d1 <;> rcases ed with _ | d2 <;>
    rcases pid with _ | p <;> rcases cid with _ | c <;>
    simp only [get_sales, mem_if_id_filter, List.mem_filter, Option.some.injEq,
      forall_eq', reduceCtorEq, false_implies, forall_const, implies_true,
      true_and, and_true] <;>
    tauto

theorem mem_calculate_revenue_matches_iff (db : List Sale)
    (params : RevenueQueryParams) (s : Sale) :
    s ∈ calculate_revenue_matches db params ↔
      s ∈ db ∧
      Date.ble params.start_date s.sale_date = true ∧
      Date.ble s.sale_date params.end_date = true ∧
      (∀ p, params.product_id = some p → p ≠ 0 → s.product_id = p) ∧
      (∀ c, params.category_id = some c → c ≠ 0 → s.category_id = c) := by
  obtain ⟨sd, ed, pid, cid⟩ := params
  rcases pid with _ | p <;> rcases cid with _ | c <;>
    simp only [calculate_revenue_matches, mem_if_id_filter, List.mem_filter,
      Bool.and_eq_true, Option.some.injEq, forall_eq', reduceCtorEq,
      false_implies, forall_const, implies_true, true_and, and_true] <;>
    tauto

/-- Folding `acc + s.revenue` over a list from `a` totals `a` plus the sum of
the `revenue` fields. -/
theorem foldl_add_revenue (l : List Sale) (a : ℚ) :
    l.foldl (fun acc s => acc + s.revenue) a = a + (l.map Sale.revenue).sum := by
  induction l generalizing a with
  | nil => simp
  | cons s t ih => simp [ih, add_assoc]

/-! ## Helper lemmas: calendar arithmetic -/

theorem daysInMonth_pos (y m : Nat) : 1 ≤ daysInMonth y m := by
  unfold daysInMonth
  split
  · split <;> omega
  · split <;> omega

theorem daysInMonth_one (y : Nat) : daysInMonth y 1 = 31 := by
  simp [daysInMonth]

theorem daysInMonth_twelve (y : Nat) : daysInMonth y 12 = 31 := by
  simp [daysInMonth]

theorem Date.valid_iff (d : Date) :
    d.valid = true ↔
      1 ≤ d.year ∧ 1 ≤ d.month ∧ d.month ≤ 12 ∧ 1 ≤ d.day ∧
        d.day ≤ daysInMonth d.year d.month := by
  simp [Date.valid, and_assoc]

theorem daysBeforeMonth_succ (y m : Nat) (hm : 1 ≤ m) :
    daysBeforeMonth y (m + 1) = daysBeforeMonth y m + daysInMonth y m := by
  cases m with
  | zero => omega
  | succ k => rfl

theorem daysBeforeMonth_twelve (y : Nat) :
    daysBeforeMonth y 12 = 334 + (if isLeap y then 1 else 0) := by
  cases h : isLeap y <;> simp [daysBeforeMonth, daysInMonth, h]

theorem leapCount_succ (y : Nat) :
    leapCount (y + 1) = leapCount y + (if isLeap (y + 1) then 1 else 0) := by
  by_cases h4 : (y + 1) % 4 = 0 <;> by_cases h100 : (y + 1) % 100 = 0 <;>
    by_cases h400 : (y + 1) % 400 = 0 <;>
    simp [leapCount, isLeap, h4, h100, h400] <;> omega

theorem nextDay_day_lt (d : Date) (h : d.day < daysInMonth d.year d.month) :
    nextDay d = ⟨d.year, d.month, d.day + 1⟩ := by
  simp [nextDay, h]

theorem nextDay_month_end (d : Date) (h : ¬ d.day < daysInMonth d.year d.month)
    (h2 : d.month < 12) : nextDay d = ⟨d.year, d.month + 1, 1⟩ := by
  simp [nextDay, h, h2]

theorem nextDay_year_end (d : Date) (h : ¬ d.day < daysInMonth d.year d.month)
    (h2 : ¬ d.month < 12) : nextDay d = ⟨d.year + 1, 1, 1⟩ := by
  simp [nextDay, h, h2]

theorem nextDay_valid (d : Date) (h : d.valid = true) :
    (nextDay d).valid = true := by
  rw [Date.valid_iff] at h
  obtain ⟨hy, hm1, hm2, hd1, hd2⟩ := h
  by_cases h1 : d.day < daysInMonth d.year d.month
  · rw [nextDay_day_lt d h1, Date.valid_iff]
    exact ⟨hy, hm1, hm2, Nat.succ_le_succ (Nat.zero_le _), h1⟩
  · by_cases h2 : d.month < 12
    · rw [nextDay_month_end d h1 h2, Date.valid_iff]
      exact ⟨hy, Nat.succ_le_succ (Nat.zero_le _), h2, le_refl 1,
        daysInMonth_pos _ _⟩
    · rw [nextDay_year_end d h1 h2, Date.valid_iff]
      exact ⟨Nat.succ_le_succ (Nat.zero_le _), le_refl 1,
        (by decide : (1 : Nat) ≤ 12), le_refl 1, daysInMonth_pos _ _⟩

theorem dateOrd_nextDay (d : Date) (h : d.valid = true) :
    dateOrd (nextDay d) = dateOrd d + 1 := by
  rw [Date.valid_iff] at h
  obtain ⟨hy, hm1, hm2, hd1, hd2⟩ := h
  by_cases h1 : d.day < daysInMonth d.year d.month
  · rw [nextDay_day_lt d h1]
    simp only [dateOrd]
    omega
  · by_cases h2 : d.month < 12
    · have hday : d.day = daysInMonth d.year d.month := by omega
      rw [nextDay_month_end d h1 h2]
      simp only [dateOrd]
      rw [daysBeforeMonth_succ d.year d.month hm1]
      omega
    · have hm12 : d.month = 12 := by omega
      have hdim : daysInMonth d.year d.month = 31 := by
        rw [hm12, daysInMonth_twelve]
      have hday : d.day = 31 := by omega
      rw [nextDay_year_end d h1 h2]
      simp only [dateOrd]
      rw [show daysBeforeMonth (d.year + 1) 1 = 0 from rfl,
        Nat.add_sub_cancel, hm12, hday, daysBeforeMonth_twelve]
      have hsucc := leapCount_succ (d.year - 1)
      rw [show d.year - 1 + 1 = d.year from by omega] at hsucc
      generalize hL : (if isLeap d.year then 1 else 0) = L at hsucc ⊢
      omega

theorem addDays_valid (n : Nat) (d : Date) (h : d.valid = true) :
    (addDays n d).valid = true := by
  induction n with
  | zero => exact h
  | succ k ih =>
    rw [addDays, Function.iterate_succ_apply']
    rw [addDays] at ih
    exact nextDay_valid _ ih

theorem dateOrd_addDays (n : Nat) (d : Date) (h : d.valid = true) :
    dateOrd (addDays n d) = dateOrd d + n := by
  induction n with
  | zero => rfl
  | succ k ih =>
    have hv := addDays_valid k d h
    rw [addDays] at hv ih
    rw [addDays, Function.iterate_succ_apply', dateOrd_nextDay _ hv]
    omega

theorem prevDay_newYear (y : Nat) :
    prevDay ⟨y + 1, 1, 1⟩ = ⟨y, 12, 31⟩ := by
  simp [prevDay, daysInMonth_twelve]

theorem prevDay_firstOfMonth (y m : Nat) (hm : 1 ≤ m) :
    prevDay ⟨y, m + 1, 1⟩ = ⟨y, m, daysInMonth y m⟩ := by
  simp [prevDay, show 1 < m + 1 by omega]

theorem replace_annual (s : Date) :
    s.replace (some (s.year + 1)) (some 1) (some 1) = some ⟨s.year + 1, 1, 1⟩ := by
  have hv : (⟨s.year + 1, 1, 1⟩ : Date).valid = true := by
    rw [Date.valid_iff]
    exact ⟨Nat.succ_le_succ (Nat.zero_le _), le_refl 1,
      (by decide : (1 : Nat) ≤ 12), le_refl 1, daysInMonth_pos _ _⟩
  simp [Date.replace, hv]

theorem replace_month_succ (s : Date) (hy : 1 ≤ s.year) (hm : s.month + 1 ≤ 12) :
    s.replace none (some (s.month + 1)) (some 1) = some ⟨s.year, s.month + 1, 1⟩ := by
  have hv : (⟨s.year, s.month + 1, 1⟩ : Date).valid = true := by
    rw [Date.valid_iff]
    exact ⟨hy, Nat.succ_le_succ (Nat.zero_le _), hm, le_refl 1,
      daysInMonth_pos _ _⟩
  simp [Date.replace, hv]

theorem replace_month_overflow (s : Date) (hm : 12 ≤ s.month) :
    s.replace none (some (s.month + 1)) (some 1) = none := by
  have hv : (⟨s.year, s.month + 1, 1⟩ : Date).valid = false := by
    rw [Bool.eq_false_iff]
    intro hc
    rw [Date.valid_iff] at hc
    have hc2 := hc.2.2.1
    simp only at hc2
    omega
  simp [Date.replace, hv]

/-- The loop of `revenue_analysis`, mutable `end_date` and all, computes for
every label exactly the window that the label's branch arithmetic derives from
the original `(start_date, end_date)` pair — there is no hidden state between
periods (shared helper for the independence claim). -/
theorem revenueLoop_eq_sequence (s e : Date) :
    revenueWindows s e =
      sequenceWindows (revenuePeriods.map (fun p => (p, periodWindow p s e))) := by
  unfold revenueWindows revenuePeriods
  cases hrep : Date.replace s none (some (s.month + 1)) (some 1) with
  | none =>
    simp [revenueLoop, periodStep, sequenceWindows, periodWindow, hrep]
  | some d3 =>
    simp [revenueLoop, periodStep, sequenceWindows, periodWindow, hrep,
      replace_annual]

/-! ## The claims -/

/-- C1: the monthly window is claimed to be derived, for every `start_date`,
as the first day of the following month minus one day, never throwing and
wrapping December into January of the next year.  The derivation does behave
as claimed for the spec's January and February examples, but for a December
`start_date` the source's `start_date.replace(day=1, month=start_date.month + 1)`
asks for month 13 and raises `ValueError` instead of wrapping: the derivation
throws, against the spec's explicit requirement. -/
theorem monthly_window_december_raises :
    periodWindow "monthly" ⟨2024, 1, 31⟩ ⟨2024, 6, 30⟩ =
      some (⟨2024, 1, 31⟩, ⟨2024, 1, 31⟩) ∧
    periodWindow "monthly" ⟨2024, 2, 1⟩ ⟨2024, 6, 30⟩ =
      some (⟨2024, 2, 1⟩, ⟨2024, 2, 29⟩) ∧
    periodWindow "monthly" ⟨2024, 12, 15⟩ ⟨2024, 12, 20⟩ = none := by
  refine ⟨?_, ?_, ?_⟩ <;> decide

/-- C2: a `Sale` row is in the result of `get_sales` iff it is stored and
satisfies every active constraint individually — lower bound when a
`start_date` is active, upper bound when an `end_date` is active, exact id
match for each id constraint that is active (an id parameter is active when
it is supplied with a nonzero value, which is how the source's truthiness
test reads it; cf. C10); the empty configuration returns every row. -/
theorem get_sales_conjunction_law (db : List Sale) (sd ed : Option Date)
    (pid cid : Option Int) (s : Sale) :
    (s ∈ get_sales db sd ed pid cid ↔
      s ∈ db ∧
      (∀ d, sd = some d → Date.ble d s.sale_date = true) ∧
      (∀ d, ed = some d → Date.ble s.sale_date d = true) ∧
      (∀ p, pid = some p → p ≠ 0 → s.product_id = p) ∧
      (∀ c, cid = some c → c ≠ 0 → s.category_id = c)) ∧
    get_sales db none none none none = db :=
  ⟨mem_get_sales_iff db sd ed pid cid s, rfl⟩

/-- C2 witness: a concrete sale passes a fully active configuration. -/
theorem get_sales_conjunction_law_witness :
    ((⟨1, 7, 2, 20, ⟨2024, 6, 5⟩, 3⟩ : Sale) ∈
        get_sales [⟨1, 7, 2, 20, ⟨2024, 6, 5⟩, 3⟩] (some ⟨2024, 6, 1⟩)
          (some ⟨2024, 6, 10⟩) (some 7) (some 3) ↔
      (⟨1, 7, 2, 20, ⟨2024, 6, 5⟩, 3⟩ : Sale) ∈
          [(⟨1, 7, 2, 20, ⟨2024, 6, 5⟩, 3⟩ : Sale)] ∧
        (∀ d, (some ⟨2024, 6, 1⟩ : Option Date) = some d →
          Date.ble d ⟨2024, 6, 5⟩ = true) ∧
        (∀ d, (some ⟨2024, 6, 10⟩ : Option Date) = some d →
          Date.ble ⟨2024, 6, 5⟩ d = true) ∧
        (∀ p, (some 7 : Option Int) = some p → p ≠ 0 → (7 : Int) = p) ∧
        (∀ c, (some 3 : Option Int) = some c → c ≠ 0 → (3 : Int) = c)) ∧
    get_sales [⟨1, 7, 2, 20, ⟨2024, 6, 5⟩, 3⟩] none none none none =
      [⟨1, 7, 2, 20, ⟨2024, 6, 5⟩, 3⟩] :=
  get_sales_conjunction_law [⟨1, 7, 2, 20, ⟨2024, 6, 5⟩, 3⟩]
    (some ⟨2024, 6, 1⟩) (some ⟨2024, 6, 10⟩) (some 7) (some 3)
    ⟨1, 7, 2, 20, ⟨2024, 6, 5⟩, 3⟩

/-- C3: with all four parameters supplied, a sale is listed by `get_sales`
exactly when it is in the row set that `calculate_revenue_for_period` sums
over with the same bounds and filters — the two surfaces agree on what counts
as matching. -/
theorem get_sales_revenue_agree (db : List Sale) (sd ed : Date) (p c : Int)
    (s : Sale) :
    s ∈ get_sales db (some sd) (some ed) (some p) (some c) ↔
      s ∈ calculate_revenue_matches db ⟨sd, ed, some p, some c⟩ := by
  rw [mem_get_sales_iff, mem_calculate_revenue_matches_iff]
  simp only [Option.some.injEq, forall_eq']

/-- C4: the weekly window is `[start_date, start_date + 6 days]` — a span
whose end lies exactly six calendar days after `start_date` (ordinals differ
by 6) — and does not depend on the supplied `end_date`. -/
theorem weekly_window_spec (s e e' : Date) :
    periodWindow "weekly" s e = some (s, addDays 6 s) ∧
    periodWindow "weekly" s e = periodWindow "weekly" s e' ∧
    (s.valid = true → dateOrd (addDays 6 s) = dateOrd s + 6) :=
  ⟨rfl, rfl, fun h => dateOrd_addDays 6 s h⟩

/-- C4 witness: the weekly window of 2024-06-01 ends 2024-06-07. -/
theorem weekly_window_spec_witness :
    periodWindow "weekly" ⟨2024, 6, 1⟩ ⟨2024, 6, 10⟩ =
      some (⟨2024, 6, 1⟩, ⟨2024, 6, 7⟩) ∧
    dateOrd (addDays 6 ⟨2024, 6, 1⟩) = dateOrd ⟨2024, 6, 1⟩ + 6 := by
  constructor
  · exact ((weekly_window_spec ⟨2024, 6, 1⟩ ⟨2024, 6, 10⟩ ⟨2024, 1, 1⟩).1).trans
      (by decide)
  · exact (weekly_window_spec ⟨2024, 6, 1⟩ ⟨2024, 6, 10⟩ ⟨2024, 1, 1⟩).2.2
      (by decide)

/-- C5: the annual window is `[start_date, December 31 of start_date's
year]`, whatever the supplied base `end_date` is. -/
theorem annual_window_spec (s e e' : Date) :
    periodWindow "annual" s e = some (s, ⟨s.year, 12, 31⟩) ∧
    periodWindow "annual" s e = periodWindow "annual" s e' := by
  constructor
  · show (s.replace (some (s.year + 1)) (some 1) (some 1)).map
      (fun d => (s, prevDay d)) = some (s, ⟨s.year, 12, 31⟩)
    rw [replace_annual]
    simp [prevDay_newYear]
  · rfl

/-- C6: the per-period revenue is the sum of the `revenue` fields of the
matching sale rows (never recomputed from quantity times price — no other
field enters), and an empty match set yields exactly 0. -/
theorem calculate_revenue_sum (db : List Sale) (params : RevenueQueryParams) :
    calculate_revenue_for_period db params =
      ((calculate_revenue_matches db params).map Sale.revenue).sum ∧
    (calculate_revenue_matches db params = [] →
      calculate_revenue_for_period db params = 0) := by
  constructor
  · rw [calculate_revenue_for_period, foldl_add_revenue]
    simp
  · intro h
    rw [calculate_revenue_for_period, h]
    rfl

/-- C6 witness: no matching rows gives revenue 0. -/
theorem calculate_revenue_sum_witness :
    calculate_revenue_for_period []
      ⟨⟨2024, 1, 1⟩, ⟨2024, 12, 1⟩, none, none⟩ = 0 :=
  (calculate_revenue_sum [] ⟨⟨2024, 1, 1⟩, ⟨2024, 12, 1⟩, none, none⟩).2 rfl

/-- C7: the four windows are independent functions of the caller's
`(start_date, end_date)`: the loop — which in the source reuses one mutable
`end_date` variable — produces for each label exactly the window that label's
branch derives from the original inputs (no hidden state threading), and
evaluating the per-period derivations in any order permutes the same
per-period results. -/
theorem revenue_windows_independent (s e : Date) :
    revenueWindows s e =
      sequenceWindows (revenuePeriods.map (fun p => (p, periodWindow p s e))) ∧
    ∀ order : List String, order.Perm revenuePeriods →
      (order.map (fun p => (p, periodWindow p s e))).Perm
        (revenuePeriods.map (fun p => (p, periodWindow p s e))) :=
  ⟨revenueLoop_eq_sequence s e, fun _ h => h.map _⟩

/-- C7 witness: at a concrete request the loop agrees with the independent
derivations, also when they are evaluated in reverse order. -/
theorem revenue_windows_independent_witness :
    revenueWindows ⟨2024, 6, 1⟩ ⟨2024, 6, 10⟩ =
      sequenceWindows (revenuePeriods.map
        (fun p => (p, periodWindow p ⟨2024, 6, 1⟩ ⟨2024, 6, 10⟩))) ∧
    (["annual", "monthly", "weekly", "daily"].map
        (fun p => (p, periodWindow p ⟨2024, 6, 1⟩ ⟨2024, 6, 10⟩))).Perm
      (revenuePeriods.map
        (fun p => (p, periodWindow p ⟨2024, 6, 1⟩ ⟨2024, 6, 10⟩))) :=
  ⟨(revenue_windows_independent ⟨2024, 6, 1⟩ ⟨2024, 6, 10⟩).1,
    (revenue_windows_independent ⟨2024, 6, 1⟩ ⟨2024, 6, 10⟩).2
      ["annual", "monthly", "weekly", "daily"] (by decide)⟩

/-- C8: `update_inventory` rejects every non-positive quantity with a 400
`InvalidInput` error, rejects a missing inventory row with a 404 `NotFound`
error, and on success stores the new (positive) quantity, stamps
`last_updated` with the current time — not earlier than the previous stamp
whenever the clock has not gone backwards — and returns the updated row. -/
theorem update_inventory_spec (db : List Inventory) (now : Nat) (pid sq : Int) :
    (sq ≤ 0 → update_inventory db now pid sq =
      .error ⟨400, "stock_quantity should be a positive integer"⟩) ∧
    (0 < sq → db.find? (fun i => i.product_id == pid) = none →
      update_inventory db now pid sq = .error ⟨404, "Inventory not found"⟩) ∧
    (∀ inv, 0 < sq → db.find? (fun i => i.product_id == pid) = some inv →
      update_inventory db now pid sq =
        .ok ({ inv with stock_quantity := sq, last_updated := now },
          replaceFirst pid
            { inv with stock_quantity := sq, last_updated := now } db) ∧
      ({ inv with stock_quantity := sq, last_updated := now } :
        Inventory).stock_quantity = sq ∧
      ({ inv with stock_quantity := sq, last_updated := now } :
        Inventory).last_updated = now ∧
      0 < ({ inv with stock_quantity := sq, last_updated := now } :
        Inventory).stock_quantity ∧
      (inv.last_updated ≤ now → inv.last_updated ≤
        ({ inv with stock_quantity := sq, last_updated := now } :
          Inventory).last_updated)) := by
  refine ⟨fun h => ?_, fun hpos hfind => ?_, fun inv hpos hfind => ?_⟩
  · simp [update_inventory, h]
  · have hne : ¬ sq ≤ 0 := by omega
    simp [update_inventory, hne, hfind]
  · have hne : ¬ sq ≤ 0 := by omega
    exact ⟨by simp [update_inventory, hne, hfind], rfl, rfl, hpos, fun h => h⟩

/-- C8 witness: quantity 3 on an existing row succeeds and advances the
stamp from 10 to 20. -/
theorem update_inventory_spec_witness :
    update_inventory [⟨1, 1, 5, 10, 1⟩] 20 1 3 =
      .ok (⟨1, 1, 3, 20, 1⟩, [⟨1, 1, 3, 20, 1⟩]) ∧
    (10 : Nat) ≤ 20 :=
  ⟨((update_inventory_spec [⟨1, 1, 5, 10, 1⟩] 20 1 3).2.2 ⟨1, 1, 5, 10, 1⟩
      (by decide) (by decide)).1,
    by decide⟩

/-- C9: the endpoint is claimed to return, for every valid request, four
`(label, revenue)` pairs in the fixed order daily, weekly, monthly, annual
with the daily entry using the unchanged caller range.  It does so for
non-December requests (second conjunct, the spec's own end-to-end example),
but a December `start_date` makes the monthly derivation raise `ValueError`,
so the request crashes and no series is returned at all (first conjunct). -/
theorem revenue_analysis_december_raises :
    revenue_analysis [] ⟨2024, 12, 15⟩ ⟨2024, 12, 20⟩ none none = none ∧
    revenue_analysis
      [⟨1, 1, 2, 20, ⟨2024, 6, 1⟩, 1⟩, ⟨2, 1, 3, 30, ⟨2024, 6, 10⟩, 1⟩]
      ⟨2024, 6, 1⟩ ⟨2024, 6, 10⟩ none none =
      some [("daily", 50), ("weekly", 20), ("monthly", 50), ("annual", 50)] := by
  constructor
  · decide
  · have hw : revenueWindows ⟨2024, 6, 1⟩ ⟨2024, 6, 10⟩ =
        some [("daily", (⟨2024, 6, 1⟩, ⟨2024, 6, 10⟩)),
          ("weekly", (⟨2024, 6, 1⟩, ⟨2024, 6, 7⟩)),
          ("monthly", (⟨2024, 6, 1⟩, ⟨2024, 6, 30⟩)),
          ("annual", (⟨2024, 6, 1⟩, ⟨2024, 12, 31⟩))] := by decide
    have hm1 : calculate_revenue_matches
        [⟨1, 1, 2, 20, ⟨2024, 6, 1⟩, 1⟩, ⟨2, 1, 3, 30, ⟨2024, 6, 10⟩, 1⟩]
        ⟨⟨2024, 6, 1⟩, ⟨2024, 6, 10⟩, none, none⟩ =
        [⟨1, 1, 2, 20, ⟨2024, 6, 1⟩, 1⟩, ⟨2, 1, 3, 30, ⟨2024, 6, 10⟩, 1⟩] := by
      decide
    have hm2 : calculate_revenue_matches
        [⟨1, 1, 2, 20, ⟨2024, 6, 1⟩, 1⟩, ⟨2, 1, 3, 30, ⟨2024, 6, 10⟩, 1⟩]
        ⟨⟨2024, 6, 1⟩, ⟨2024, 6, 7⟩, none, none⟩ =
        [⟨1, 1, 2, 20, ⟨2024, 6, 1⟩, 1⟩] := by decide
    have hm3 : calculate_revenue_matches
        [⟨1, 1, 2, 20, ⟨2024, 6, 1⟩, 1⟩, ⟨2, 1, 3, 30, ⟨2024, 6, 10⟩, 1⟩]
        ⟨⟨2024, 6, 1⟩, ⟨2024, 6, 30⟩, none, none⟩ =
        [⟨1, 1, 2, 20, ⟨2024, 6, 1⟩, 1⟩, ⟨2, 1, 3, 30, ⟨2024, 6, 10⟩, 1⟩] := by
      decide
    have hm4 : calculate_revenue_matches
        [⟨1, 1, 2, 20, ⟨2024, 6, 1⟩, 1⟩, ⟨2, 1, 3, 30, ⟨2024, 6, 10⟩, 1⟩]
        ⟨⟨2024, 6, 1⟩, ⟨2024, 12, 31⟩, none, none⟩ =
        [⟨1, 1, 2, 20, ⟨2024, 6, 1⟩, 1⟩, ⟨2, 1, 3, 30, ⟨2024, 6, 10⟩, 1⟩] := by
      decide
    rw [revenue_analysis, hw]
    simp only [Option.map_some', List.map_cons, List.map_nil,
      calculate_revenue_for_period, hm1, hm2, hm3, hm4, List.foldl_cons,
      List.foldl_nil]
    norm_num

/-- C10: supplying `product_id = 0` (or `category_id = 0`) applies no
constraint at all — the listing and the revenue computation behave exactly
as if the parameter had been omitted, so rows with arbitrary ids keep
matching. -/
theorem zero_id_means_no_filter (db : List Sale) (sd ed : Option Date)
    (pid cid : Option Int) (rs re : Date) :
    get_sales db sd ed (some 0) cid = get_sales db sd ed none cid ∧
    get_sales db sd ed pid (some 0) = get_sales db sd ed pid none ∧
    calculate_revenue_matches db ⟨rs, re, some 0, cid⟩ =
      calculate_revenue_matches db ⟨rs, re, none, cid⟩ ∧
    calculate_revenue_matches db ⟨rs, re, pid, some 0⟩ =
      calculate_revenue_matches db ⟨rs, re, pid, none⟩ ∧
    calculate_revenue_for_period db ⟨rs, re, some 0, cid⟩ =
      calculate_revenue_for_period db ⟨rs, re, none, cid⟩ :=
  ⟨rfl, rfl, rfl, rfl, rfl⟩

end Forsit
